import Mathlib

/-!
Verification of the logging and config-resolution layer of k0sctl's
`cmd/flags.go` against its specification, via a shallow embedding in Lean.

The embedding models:
- the logrus severity levels (`Level`, numerically Panic = 0 .. Trace = 6,
  with `log.AllLevels` in that order) and the spec's six-severity ordering
  Fatal < Error < Warning < Info < Debug < Trace (`SpecSeverity`);
- the `loghook` type with its `SetLevel`, `Levels` and `Fire` operations;
- the `screenLoggerHook` and `fileLoggerHook` constructors;
- `logLevelFromCtx`, `initLogging`, `initSilentLogging`, `initFileLogger`
  and `LogFile`, with the ambient OS facilities (cache directory creation,
  file opening, terminal detection) passed in explicitly as an environment;
- `configReader` with the filesystem passed in as an environment.
-/

/-- The logrus log levels. Numerically (`Level.toNat`): Panic = 0, Fatal = 1,
Error = 2, Warn = 3, Info = 4, Debug = 5, Trace = 6, as in
`sirupsen/logrus`. -/
inductive Level where
  | panicL
  | fatal
  | errorL
  | warn
  | info
  | debug
  | trace
deriving DecidableEq, Repr, Fintype

/-- The numeric value of a logrus level (logrus `Level` is a uint32). -/
def Level.toNat : Level → Nat
  | .panicL => 0
  | .fatal => 1
  | .errorL => 2
  | .warn => 3
  | .info => 4
  | .debug => 5
  | .trace => 6

/-- logrus `log.AllLevels`: every level, in ascending numeric order. -/
def allLevels : List Level :=
  [.panicL, .fatal, .errorL, .warn, .info, .debug, .trace]

/-- The spec's severity model: an ordered enumeration, least to most verbose,
Fatal < Error < Warning < Info < Debug < Trace. -/
inductive SpecSeverity where
  | fatal
  | error
  | warning
  | info
  | debug
  | trace
deriving DecidableEq, Repr, Fintype

/-- Position of a severity in the spec's ordering Fatal < Error < Warning <
Info < Debug < Trace (0 = Fatal, 5 = Trace). A severity S is at least as
severe as T exactly when `S.rank ≤ T.rank`. -/
def SpecSeverity.rank : SpecSeverity → Nat
  | .fatal => 0
  | .error => 1
  | .warning => 2
  | .info => 3
  | .debug => 4
  | .trace => 5

/-- The logrus level corresponding to a spec severity. -/
def SpecSeverity.toLevel : SpecSeverity → Level
  | .fatal => .fatal
  | .error => .errorL
  | .warning => .warn
  | .info => .info
  | .debug => .debug
  | .trace => .trace

/-- Destination writer of a hook: `os.Stdout`, the ansicolor-wrapped stdout
used on Windows, or the opened log file (identified by its path). -/
inductive WriterTag where
  | stdout
  | ansiColorStdout
  | file (path : String)
deriving DecidableEq, Repr

/-- Configuration of a logrus `TextFormatter`, restricted to the fields
`cmd/flags.go` sets. -/
structure TextFormatter where
  disableTimestamp : Bool := false
  forceColors : Bool := false
  fullTimestamp : Bool := false
  timestampFormat : String := ""
  disableLevelTruncation : Bool := false
deriving DecidableEq, Repr

/-- The `loghook` struct: a writer, a formatter and the computed acceptance
list of levels. -/
structure Loghook where
  writer : WriterTag
  formatter : TextFormatter
  levels : List Level
deriving DecidableEq, Repr

/-- `loghook.SetLevel`: rebuilds `levels` by walking `log.AllLevels` and
keeping every level `l` with `level >= l` (uint32 comparison). -/
def levelsUpTo (level : Level) : List Level :=
  allLevels.filter fun l => decide (level.toNat ≥ l.toNat)

/-- `loghook.SetLevel` acting on a hook value. -/
def Loghook.setLevel (h : Loghook) (level : Level) : Loghook :=
  { h with levels := levelsUpTo level }

/-- Claim C1: after `SetLevel(T)` the hook's acceptance set contains severity
S iff S is at least as severe as T under the spec ordering Fatal < Error <
Warning < Info < Debug < Trace; in particular threshold Info accepts
Fatal, Error, Warning, Info and rejects Debug, Trace. -/
theorem setLevel_accepts_iff_at_least_as_severe :
    ∀ (h : Loghook) (S T : SpecSeverity),
      S.toLevel ∈ (h.setLevel T.toLevel).levels ↔ S.rank ≤ T.rank := by
  intro h S T
  show S.toLevel ∈ levelsUpTo T.toLevel ↔ S.rank ≤ T.rank
  revert S T
  decide

/-- A log entry as delivered to a hook: its level and message. -/
structure Entry where
  level : Level
  message : String
deriving DecidableEq, Repr

/-- Observable outcome of one `loghook.Fire` call: the lines written to the
hook's destination writer, the diagnostics written to `os.Stderr`, and the
error value returned to the caller (`none` = nil). -/
structure FireResult where
  destWrites : List String
  stderrOutput : List String
  returnedError : Option String
deriving DecidableEq, Repr

/-- `loghook.Fire`: format the entry; on a formatting error print
"Unable to format log entry: ..." to stderr and return the error; otherwise
write the formatted line to the destination writer and return the write's
error. The formatter and the writer's write outcome are passed in as
functions. -/
def loghookFire (format : Entry → Except String String)
    (write : String → Option String) (entry : Entry) : FireResult :=
  match format entry with
  | .error e =>
      { destWrites := []
        stderrOutput := ["Unable to format log entry: " ++ e]
        returnedError := some e }
  | .ok line =>
      { destWrites := [line]
        stderrOutput := []
        returnedError := write line }

/-- The logrus dispatcher fires a hook for an entry exactly when the entry's
level is in the hook's `Levels()` list; the lines this produces on the hook's
destination. -/
def hookWrites (h : Loghook) (format : Entry → Except String String)
    (write : String → Option String) (e : Entry) : List String :=
  if e.level ∈ h.levels then (loghookFire format write e).destWrites else []

/-- `logLevelFromCtx`: Trace if the "trace" flag is set, else Debug if the
"debug" flag is set, else the supplied default level. -/
def logLevelFromCtx (traceFlag debugFlag : Bool) (defaultLevel : Level) :
    Level :=
  if traceFlag then .trace
  else if debugFlag then .debug
  else defaultLevel

/-- `screenLoggerHook`: on Windows the writer is the ansicolor wrapper and
colors are forced; otherwise the writer is `os.Stdout` and colors are forced
exactly when stdout is a character device. The formatter disables the
timestamp when `lvl < log.DebugLevel`; the level filter is `SetLevel lvl`. -/
def screenLoggerHook (isWindows stdoutIsCharDevice : Bool) (lvl : Level) :
    Loghook :=
  let forceColors := if isWindows then true else stdoutIsCharDevice
  { writer := if isWindows then .ansiColorStdout else .stdout
    formatter :=
      { disableTimestamp := decide (lvl.toNat < Level.debug.toNat)
        forceColors := forceColors }
    levels := levelsUpTo lvl }

/-- `fileLoggerHook`: writer is the opened log file, formatter uses a full
RFC822 timestamp and no level truncation, and the filter is
`SetLevel(log.DebugLevel)`. -/
def fileLoggerHook (logFilePath : String) : Loghook :=
  { writer := .file logFilePath
    formatter :=
      { fullTimestamp := true
        timestampFormat := "02 Jan 06 15:04 MST"
        disableLevelTruncation := true }
    levels := levelsUpTo .debug }

/-- Ambient process environment for logger initialization: the cache
directory path, whether `cache.EnsureDir` / `os.OpenFile` fail (and with
which message), the OS, terminal detection, and the cli flags. -/
structure SysEnv where
  cacheDir : String
  ensureDirFails : Option String
  openLogFails : Option String
  isWindows : Bool
  stdoutIsCharDevice : Bool
  traceFlag : Bool
  debugFlag : Bool
  noRedact : Bool

/-- Mutable logging state touched by initialization: the standard logger's
level and discarded output, the redaction flag, and the ordered list of
registered hooks. -/
structure LogState where
  stdLevel : Level
  outputDiscarded : Bool
  disableRedact : Bool
  hooks : List Loghook
deriving Repr

/-- `log.AddHook`: appends a hook to the registered hooks. -/
def addHook (st : LogState) (h : Loghook) : LogState :=
  { st with hooks := st.hooks ++ [h] }

/-- `LogFile`: ensure the cache directory exists (failure yields the
"error while creating log directory" error), then open
`<cacheDir>/k0sctl.log` append-mode (failure yields the "Failed to open log"
error), returning the opened file's path. -/
def logFile (env : SysEnv) : Except String String :=
  let logDir := env.cacheDir
  match env.ensureDirFails with
  | some msg =>
      .error ("error while creating log directory " ++ logDir ++ ": " ++ msg)
  | none =>
      let fn := logDir ++ "/k0sctl.log"
      match env.openLogFails with
      | some msg => .error ("Failed to open log " ++ fn ++ ": " ++ msg)
      | none => .ok fn

/-- `initFileLogger`: call `LogFile`; on error return it, otherwise register
the file logger hook on the opened file. -/
def initFileLogger (env : SysEnv) (st : LogState) : LogState × Option String :=
  match logFile env with
  | .error e => (st, some e)
  | .ok lf => (addHook st (fileLoggerHook lf), none)

/-- `initScreenLogger`: register the screen logger hook at the given level. -/
def initScreenLogger (env : SysEnv) (st : LogState) (lvl : Level) : LogState :=
  addHook st (screenLoggerHook env.isWindows env.stdoutIsCharDevice lvl)

/-- `initLogging`: set the standard logger to Trace with discarded output,
register the screen hook at `logLevelFromCtx(ctx, log.InfoLevel)`, set the
redaction flag, then run `initFileLogger`, returning its error if any. -/
def initLogging (env : SysEnv) (st : LogState) : LogState × Option String :=
  let st1 := { st with stdLevel := Level.trace, outputDiscarded := true }
  let st2 := initScreenLogger env
    { st1 with disableRedact := env.noRedact }
    (logLevelFromCtx env.traceFlag env.debugFlag .info)
  initFileLogger env st2

/-- `initSilentLogging`: as `initLogging` but the screen hook's default level
is `log.FatalLevel`. -/
def initSilentLogging (env : SysEnv) (st : LogState) :
    LogState × Option String :=
  let st1 := { st with stdLevel := Level.trace, outputDiscarded := true }
  let st2 := initScreenLogger env
    { st1 with disableRedact := env.noRedact }
    (logLevelFromCtx env.traceFlag env.debugFlag .fatal)
  initFileLogger env st2

/-- Result of `configReader`: the already-open stdin stream, or an opened
file identified by its absolute path. -/
inductive ConfigSource where
  | stdin
  | file (abspath : String)
deriving DecidableEq, Repr

/-- The failure modes of `configReader`. -/
inductive CfgErr where
  | cantStatStdin (msg : String)
  | cantReadStdin
  | absFailed (fn : String)
  | openFailed (fp : String)
  | failedToLocate
deriving DecidableEq, Repr

/-- The error message `configReader` produces for each failure. -/
def CfgErr.message : CfgErr → String
  | .cantStatStdin msg => "can't stat stdin: " ++ msg
  | .cantReadStdin => "can't read stdin"
  | .absFailed fn => "abs failed: " ++ fn
  | .openFailed fp => "open failed: " ++ fp
  | .failedToLocate => "failed to locate configuration"

/-- Filesystem / process environment for `configReader`: whether
`os.Stdin.Stat` succeeds and whether stdin is a character device, whether
`os.Stat` succeeds on a name, what `filepath.Abs` returns (None = error),
and whether `os.Open` succeeds on a path. -/
structure FsEnv where
  stdinStatFails : Option String
  stdinIsCharDevice : Bool
  statOk : String → Bool
  absPath : String → Option String
  openOk : String → Bool

/-- The candidate list built by `configReader` for a non-stdin token:
the token itself, plus `k0sctl.yml` when the token is the default
`k0sctl.yaml`. -/
def variants (f : String) : List String :=
  if f = "k0sctl.yaml" then [f, "k0sctl.yml"] else [f]

/-- The loop of `configReader` over the candidate list: skip candidates that
fail `os.Stat`; on the first that exists, resolve via `filepath.Abs` and
`os.Open` (either failure aborts with that error) and return the opened
file; if the list is exhausted, fail with `failedToLocate`. -/
def tryVariants (env : FsEnv) : List String → Except CfgErr ConfigSource
  | [] => .error .failedToLocate
  | fn :: rest =>
      if env.statOk fn then
        match env.absPath fn with
        | none => .error (.absFailed fn)
        | some fp =>
            if env.openOk fp then .ok (.file fp)
            else .error (.openFailed fp)
      else tryVariants env rest

/-- `configReader`: for the token "-" inspect stdin (stat failure, then the
character-device check); otherwise walk the candidate list. -/
def configReader (env : FsEnv) (f : String) : Except CfgErr ConfigSource :=
  if f = "-" then
    match env.stdinStatFails with
    | some msg => .error (.cantStatStdin msg)
    | none =>
        if env.stdinIsCharDevice = false then .ok .stdin
        else .error .cantReadStdin
  else
    tryVariants env (variants f)

lemma tryVariants_all_missing (env : FsEnv) :
    ∀ l : List String, (∀ fn ∈ l, env.statOk fn = false) →
      tryVariants env l = .error .failedToLocate := by
  intro l
  induction l with
  | nil => intro _; rfl
  | cons fn rest ih =>
      intro hall
      have h1 : env.statOk fn = false := hall fn (List.mem_cons_self fn rest)
      simp only [tryVariants, h1, Bool.false_eq_true, if_false]
      exact ih fun g hg => hall g (List.mem_cons_of_mem fn hg)

/-- Claim C2: for a non-stdin token f, the candidate list is [f], with
"k0sctl.yml" appended exactly when f = "k0sctl.yaml"; candidates are checked
in order, non-existent candidates are skipped without error, and the first
existing candidate is resolved to an absolute path, opened and returned,
with no further candidates tried. -/
theorem configReader_candidate_resolution :
    ∀ (env : FsEnv) (f : String), f ≠ "-" →
      configReader env f = tryVariants env (variants f)
      ∧ variants f = (if f = "k0sctl.yaml" then [f, "k0sctl.yml"] else [f])
      ∧ (∀ (fn : String) (rest : List String), env.statOk fn = false →
          tryVariants env (fn :: rest) = tryVariants env rest)
      ∧ (∀ (fn fp : String) (rest : List String), env.statOk fn = true →
          env.absPath fn = some fp → env.openOk fp = true →
          tryVariants env (fn :: rest) = .ok (.file fp)) := by
  intro env f hf
  refine ⟨by simp [configReader, hf], rfl, ?_, ?_⟩
  · intro fn rest h
    simp [tryVariants, h]
  · intro fn fp rest h1 h2 h3
    simp [tryVariants, h1, h2, h3]

/-- An environment where only "k0sctl.yml" exists, abs prefixes "/abs/",
and every open succeeds. Used to witness candidate resolution. -/
def fsEnvYmlOnly : FsEnv :=
  { stdinStatFails := none
    stdinIsCharDevice := false
    statOk := fun s => s == "k0sctl.yml"
    absPath := fun s => some ("/abs/" ++ s)
    openOk := fun _ => true }

/-- Witness for C2: with only "k0sctl.yml" on disk, the default token skips
the missing "k0sctl.yaml" and opens the ".yml" sibling at its absolute
path. -/
theorem configReader_candidate_resolution_witness :
    configReader fsEnvYmlOnly "k0sctl.yaml" =
      tryVariants fsEnvYmlOnly (variants "k0sctl.yaml")
    ∧ tryVariants fsEnvYmlOnly ["k0sctl.yaml", "k0sctl.yml"] =
      tryVariants fsEnvYmlOnly ["k0sctl.yml"]
    ∧ tryVariants fsEnvYmlOnly ["k0sctl.yml"] =
      .ok (.file "/abs/k0sctl.yml") :=
  ⟨(configReader_candidate_resolution fsEnvYmlOnly "k0sctl.yaml"
      (by decide)).1,
   (configReader_candidate_resolution fsEnvYmlOnly "k0sctl.yaml"
      (by decide)).2.2.1 "k0sctl.yaml" ["k0sctl.yml"] (by decide),
   (configReader_candidate_resolution fsEnvYmlOnly "k0sctl.yaml"
      (by decide)).2.2.2 "k0sctl.yml" "/abs/k0sctl.yml" [] (by decide)
      rfl rfl⟩

/-- Claim C3: resolving "-" returns the stdin stream when stdin is not a
character device, and fails with the distinct "can't read stdin" error when
it is a terminal. -/
theorem configReader_stdin_marker :
    ∀ env : FsEnv, env.stdinStatFails = none →
      (env.stdinIsCharDevice = false → configReader env "-" = .ok .stdin)
      ∧ (env.stdinIsCharDevice = true →
          configReader env "-" = .error .cantReadStdin)
      ∧ CfgErr.cantReadStdin ≠ CfgErr.failedToLocate := by
  intro env h
  refine ⟨?_, ?_, by decide⟩
  · intro hc
    simp [configReader, h, hc]
  · intro hc
    simp [configReader, h, hc]

/-- Environment with stdin redirected from a pipe (not a terminal). -/
def fsEnvPipe : FsEnv :=
  { fsEnvYmlOnly with stdinIsCharDevice := false }

/-- Environment with stdin attached to a terminal. -/
def fsEnvTty : FsEnv :=
  { fsEnvYmlOnly with stdinIsCharDevice := true }

/-- Witness for C3: "-" resolves to stdin on a pipe and is rejected on a
terminal. -/
theorem configReader_stdin_marker_witness :
    configReader fsEnvPipe "-" = .ok .stdin
    ∧ configReader fsEnvTty "-" = .error .cantReadStdin :=
  ⟨(configReader_stdin_marker fsEnvPipe rfl).1 rfl,
   (configReader_stdin_marker fsEnvTty rfl).2.1 rfl⟩

/-- Claim C4: when no candidate exists the resolver fails with
"failed to locate configuration"; and the result is always exactly one of an
opened stream or a failure, never both and never neither. -/
theorem configReader_exhaustion_and_totality :
    (∀ (env : FsEnv) (f : String), f ≠ "-" →
        (∀ fn ∈ variants f, env.statOk fn = false) →
        configReader env f = .error .failedToLocate
        ∧ CfgErr.failedToLocate.message = "failed to locate configuration")
    ∧ (∀ (env : FsEnv) (f : String),
        (∃ s, configReader env f = .ok s) ∨
        (∃ e, configReader env f = .error e))
    ∧ (∀ (env : FsEnv) (f : String) (s : ConfigSource) (e : CfgErr),
        ¬(configReader env f = .ok s ∧ configReader env f = .error e)) := by
  refine ⟨?_, ?_, ?_⟩
  · intro env f hf hall
    refine ⟨?_, rfl⟩
    rw [(configReader_candidate_resolution env f hf).1]
    exact tryVariants_all_missing env (variants f) hall
  · intro env f
    cases h : configReader env f with
    | ok s => exact Or.inl ⟨s, rfl⟩
    | error e => exact Or.inr ⟨e, rfl⟩
  · intro env f s e ⟨h1, h2⟩
    rw [h1] at h2
    exact Except.noConfusion h2

/-- An environment in which no file exists at all. -/
def fsEnvEmpty : FsEnv :=
  { fsEnvYmlOnly with statOk := fun _ => false }

/-- Witness for C4: an absent explicit path yields exactly the
"failed to locate configuration" failure, and that run is not
simultaneously a success. -/
theorem configReader_exhaustion_witness :
    (configReader fsEnvEmpty "missing.yaml" = .error .failedToLocate
      ∧ CfgErr.failedToLocate.message = "failed to locate configuration")
    ∧ ¬(configReader fsEnvEmpty "missing.yaml" = .ok .stdin
      ∧ configReader fsEnvEmpty "missing.yaml" = .error .failedToLocate) :=
  ⟨configReader_exhaustion_and_totality.1 fsEnvEmpty "missing.yaml"
      (by decide) (fun fn _ => rfl),
   configReader_exhaustion_and_totality.2.2 fsEnvEmpty "missing.yaml"
      .stdin .failedToLocate⟩

/-- Claim C5: the file sink's threshold is fixed at Debug: over the spec's
severities it accepts exactly {Fatal, Error, Warning, Info, Debug}, and an
entry stream at every severity produces one write per severity except
Trace, which is never written. -/
theorem fileLoggerHook_debug_filter :
    ∀ (lf : String),
      (∀ S : SpecSeverity,
        S.toLevel ∈ (fileLoggerHook lf).levels ↔ S ≠ SpecSeverity.trace)
      ∧ (∀ (line msg : String) (S : SpecSeverity),
          hookWrites (fileLoggerHook lf) (fun _ => .ok line) (fun _ => none)
            { level := S.toLevel, message := msg } =
            if S = SpecSeverity.trace then [] else [line]) := by
  intro lf
  constructor
  · intro S
    show S.toLevel ∈ levelsUpTo .debug ↔ S ≠ SpecSeverity.trace
    revert S
    decide
  · intro line msg S
    cases S <;> rfl

/-- Counterexample to claim C6: at configured verbosity Debug — which is "at
or below the Debug threshold" — the screen sink's formatter does NOT omit
the timestamp (`DisableTimestamp` is false, because the code tests
`lvl < log.DebugLevel`, a strict comparison). -/
theorem screen_timestamp_claim_counterexample :
    (screenLoggerHook false false
        SpecSeverity.debug.toLevel).formatter.disableTimestamp = false
    ∧ SpecSeverity.debug.rank ≤ SpecSeverity.debug.rank := by
  decide

/-- Claim C6 (amended): the screen sink's formatter omits the timestamp
exactly when the configured verbosity level is STRICTLY below the Debug
threshold (Info or less verbose), and includes it at Debug and Trace. -/
theorem screen_timestamp_iff_strictly_below_debug :
    ∀ (w c : Bool) (S : SpecSeverity),
      (screenLoggerHook w c S.toLevel).formatter.disableTimestamp = true ↔
        S.rank < SpecSeverity.debug.rank := by
  decide

/-- Claim C7: if formatting an entry fails, the failure is reported on the
process error stream, zero writes reach the destination, and the error is
returned; if formatting succeeds, exactly one write of the formatted line
is made to the destination. -/
theorem loghookFire_format_failure_isolated :
    ∀ (format : Entry → Except String String)
      (write : String → Option String) (entry : Entry),
      (∀ e, format entry = .error e →
        loghookFire format write entry =
          { destWrites := []
            stderrOutput := ["Unable to format log entry: " ++ e]
            returnedError := some e })
      ∧ (∀ line, format entry = .ok line →
          loghookFire format write entry =
            { destWrites := [line]
              stderrOutput := []
              returnedError := write line }) := by
  intro format write entry
  constructor
  · intro e h
    simp [loghookFire, h]
  · intro line h
    simp [loghookFire, h]

/-- A sample entry used by witnesses. -/
def entrySample : Entry := { level := .info, message := "hello" }

/-- Witness for C7: a failing formatter produces a stderr report, no
destination write, and a returned error; a succeeding formatter produces
exactly one destination write. -/
theorem loghookFire_format_failure_isolated_witness :
    loghookFire (fun _ => .error "boom") (fun _ => none) entrySample =
      { destWrites := []
        stderrOutput := ["Unable to format log entry: boom"]
        returnedError := some "boom" }
    ∧ loghookFire (fun _ => .ok "line") (fun _ => none) entrySample =
      { destWrites := ["line"]
        stderrOutput := []
        returnedError := none } :=
  ⟨(loghookFire_format_failure_isolated (fun _ => .error "boom")
      (fun _ => none) entrySample).1 "boom" rfl,
   (loghookFire_format_failure_isolated (fun _ => .ok "line")
      (fun _ => none) entrySample).2 "line" rfl⟩

/-- Claim C8: acceptance is monotone in configured verbosity: if T1 is at
least as verbose as T2, every level accepted under SetLevel(T2) is accepted
under SetLevel(T1). -/
theorem setLevel_monotone_in_verbosity :
    ∀ (T1 T2 : SpecSeverity), T2.rank ≤ T1.rank →
      ∀ l : Level, l ∈ levelsUpTo T2.toLevel → l ∈ levelsUpTo T1.toLevel := by
  decide

/-- Witness for C8: Trace is at least as verbose as Info, and Fatal — which
the Info threshold accepts — is accepted by the Trace threshold. -/
theorem setLevel_monotone_in_verbosity_witness :
    Level.fatal ∈ levelsUpTo SpecSeverity.trace.toLevel :=
  setLevel_monotone_in_verbosity .trace .info (by decide) .fatal (by decide)

/-- Claim C9: the screen sink's threshold is Trace when the "trace" flag is
set, else Debug when "debug" is set, else the caller-supplied default —
Info for `initLogging` and Fatal for `initSilentLogging` (whose screen hook
is registered with that derived level). -/
theorem screen_threshold_derivation :
    (∀ (d : Bool) (dflt : Level), logLevelFromCtx true d dflt = Level.trace)
    ∧ (∀ dflt : Level, logLevelFromCtx false true dflt = Level.debug)
    ∧ (∀ dflt : Level, logLevelFromCtx false false dflt = dflt)
    ∧ (∀ (env : SysEnv) (st : LogState),
        screenLoggerHook env.isWindows env.stdoutIsCharDevice
          (logLevelFromCtx env.traceFlag env.debugFlag Level.info)
          ∈ (initLogging env st).1.hooks)
    ∧ (∀ (env : SysEnv) (st : LogState),
        screenLoggerHook env.isWindows env.stdoutIsCharDevice
          (logLevelFromCtx env.traceFlag env.debugFlag Level.fatal)
          ∈ (initSilentLogging env st).1.hooks) := by
  refine ⟨fun d dflt => rfl, fun dflt => rfl, fun dflt => rfl, ?_, ?_⟩
  · intro env st
    cases h : logFile env <;>
      simp [initLogging, initFileLogger, initScreenLogger, addHook, h]
  · intro env st
    cases h : logFile env <;>
      simp [initSilentLogging, initFileLogger, initScreenLogger, addHook, h]

/-- Claim C10: initLogging registers the screen hook before attempting file
sink initialization, so when LogFile fails it returns that error while the
screen hook remains registered — the logging state is not rolled back. -/
theorem initLogging_not_atomic_on_logfile_failure :
    ∀ (env : SysEnv) (st : LogState) (e : String),
      logFile env = .error e →
        (initLogging env st).2 = some e
        ∧ screenLoggerHook env.isWindows env.stdoutIsCharDevice
            (logLevelFromCtx env.traceFlag env.debugFlag Level.info)
            ∈ (initLogging env st).1.hooks := by
  intro env st e h
  constructor
  · simp [initLogging, initFileLogger, initScreenLogger, addHook, h]
  · simp [initLogging, initFileLogger, initScreenLogger, addHook, h]

/-- An environment in which the cache directory cannot be created. -/
def sysEnvDirFails : SysEnv :=
  { cacheDir := "cache"
    ensureDirFails := some "permission denied"
    openLogFails := none
    isWindows := false
    stdoutIsCharDevice := false
    traceFlag := false
    debugFlag := false
    noRedact := false }

/-- An initial logging state with no registered hooks. -/
def logStateEmpty : LogState :=
  { stdLevel := .info
    outputDiscarded := false
    disableRedact := false
    hooks := [] }

/-- Witness for C10: with directory creation failing, initLogging returns
the LogFile error yet the screen hook is registered in the final state. -/
theorem initLogging_not_atomic_witness :
    (initLogging sysEnvDirFails logStateEmpty).2 =
      some "error while creating log directory cache: permission denied"
    ∧ screenLoggerHook sysEnvDirFails.isWindows
        sysEnvDirFails.stdoutIsCharDevice
        (logLevelFromCtx sysEnvDirFails.traceFlag sysEnvDirFails.debugFlag
          Level.info)
        ∈ (initLogging sysEnvDirFails logStateEmpty).1.hooks :=
  initLogging_not_atomic_on_logfile_failure sysEnvDirFails logStateEmpty
    "error while creating log directory cache: permission denied" rfl
